import Mathlib

/-!
# Verification of the bk-cmdb event distribution engine excerpts

Shallow embedding of the event-distribution core of bk-cmdb:

* `src/source_controller/coreservice/cache/business/lock.go` — the
  single-flight refresh lock table;
* `src/scene_server/event_server/distribution/distributer.go` — the
  subscription registry, subscriber index and resource-cursor tracker;
* `src/scene_server/event_server/distribution/event.go` — the event
  handler and the per-subscriber event sender;
* `src/scene_server/event_server/service/watch.go` — the watch response
  generator.

Go maps indexed with a zero default are embedded as total functions; the
redis cache is embedded as a partial store `String → Option String` with
the redis.v5 semantics that `GET` on an absent key yields a `redis.Nil`
error.  Machine integers are embedded as `Int`/`Nat` (no arithmetic here
comes near overflow and the source performs no wrapping).
-/

/-! ## Refresh lock table (`lock.go`) -/

/-- State of `refreshingLock.refreshing`: a Go `map[string]bool`, where a
key may be absent (`none`).  The mutex serialises all three operations,
so they are embedded as sequential state transformers. -/
def RefreshMap : Type := String → Option Bool

/-- Write one key of the map. -/
def RefreshMap.set (m : RefreshMap) (k : String) (v : Bool) : RefreshMap :=
  fun k' => if k' = k then some v else m k'

/-- `refreshingLock.canRefresh` (lock.go:24-33): returns whether the key
may be refreshed and the updated map (an absent key is recorded as
`false`). -/
def canRefresh (m : RefreshMap) (k : String) : Bool × RefreshMap :=
  match m k with
  | none => (true, m.set k false)
  | some refreshing => (!refreshing, m)

/-- `refreshingLock.setRefreshing` (lock.go:36-40). -/
def setRefreshing (m : RefreshMap) (k : String) : RefreshMap :=
  m.set k true

/-- `refreshingLock.setUnRefreshing` (lock.go:43-47). -/
def setUnRefreshing (m : RefreshMap) (k : String) : RefreshMap :=
  m.set k false

/-- One invocation of the lock table's API, for stating properties about
sequences of operations. -/
inductive LockOp : Type
  | canRefreshOp (k : String)
  | setRefreshingOp (k : String)
  | setUnRefreshingOp (k : String)
deriving DecidableEq

/-- Apply one operation to the map (the boolean answer of `canRefresh`
is dropped, its side effect kept). -/
def LockOp.apply (m : RefreshMap) : LockOp → RefreshMap
  | .canRefreshOp k => (canRefresh m k).2
  | .setRefreshingOp k => setRefreshing m k
  | .setUnRefreshingOp k => setUnRefreshing m k

/-- Apply a sequence of operations, left to right. -/
def LockOp.applyAll (m : RefreshMap) (ops : List LockOp) : RefreshMap :=
  ops.foldl LockOp.apply m

/-- The key is marked in-progress. -/
def RefreshMap.inProgress (m : RefreshMap) (k : String) : Prop :=
  m k = some true

/-! ## Subscriber index (`distributer.go`) -/

/-- The `subscribers` map of the distributer, `key(ownerid:event_type)
-> subscriberIDs` (distributer.go:72).  A Go map read with a missing key
yields the nil slice, so the map is embedded as a total function with
default `[]`. -/
def Subscribers : Type := String → List Int

/-- Write one bucket of the index. -/
def Subscribers.set (s : Subscribers) (k : String) (v : List Int) : Subscribers :=
  fun k' => if k' = k then v else s k'

/-- `Distributer.subscriberKey` (distributer.go:351-353). -/
def subscriberKey (ownerid eventType : String) : String :=
  ownerid ++ ":" ++ eventType

/-- `Distributer.addSubscriber` (distributer.go:356-370): append the id
to the bucket unless it is already present. -/
def addSubscriber (s : Subscribers) (ownerid eventType : String) (subid : Int) : Subscribers :=
  let subKey := subscriberKey ownerid eventType
  let subscribers := s subKey
  if subid ∈ subscribers then s
  else s.set subKey (subscribers ++ [subid])

/-- `Distributer.remSubscriber` (distributer.go:373-387): rebuild the
bucket keeping every id different from `subid`. -/
def remSubscriber (s : Subscribers) (ownerid eventType : String) (subid : Int) : Subscribers :=
  let subKey := subscriberKey ownerid eventType
  s.set subKey ((s subKey).filter (fun id => id ≠ subid))

/-! ## Event handler start-up checks (`event.go`) -/

/-- The dependencies `EventHandler.Start` (event.go:541-581) null-checks
before spawning the processing loop; each field holds `none` exactly
when the corresponding Go pointer is nil. -/
structure EventHandlerDeps : Type where
  cache : Option Unit
  distributer : Option Unit
  hash : Option Unit

/-- `EventHandler.Start` (event.go:541-581): return an error for the
first nil dependency; otherwise start the processing goroutine and
return nil. -/
def EventHandlerStart (h : EventHandlerDeps) : Except String Unit :=
  if h.cache = none then .error "redis cache not inited"
  else if h.distributer = none then .error "distributer not inited"
  else if h.hash = none then .error "hash not inited"
  else .ok ()

/-! ## Theorems: C7, C8, C9 -/

section LockProofs

/-- `canRefresh` never turns a `some true` entry off, and no operation
other than `setUnRefreshing k` (or `canRefresh` on an absent key, which
cannot apply here) clears the mark for `k`. -/
theorem lockop_preserves_inprogress (m : RefreshMap) (k : String) (op : LockOp)
    (hm : m k = some true) (hop : op ≠ .setUnRefreshingOp k) :
    (op.apply m) k = some true := by
  cases op with
  | canRefreshOp k' =>
    simp only [LockOp.apply, canRefresh]
    cases h : m k' with
    | none =>
      simp only [RefreshMap.set]
      by_cases hk : k = k'
      · rw [hk] at hm; rw [hm] at h; cases h
      · simp [hk, hm]
    | some b => simpa using hm
  | setRefreshingOp k' =>
    simp only [LockOp.apply, setRefreshing, RefreshMap.set]
    by_cases hk : k = k' <;> simp [hk, hm]
  | setUnRefreshingOp k' =>
    simp only [LockOp.apply, setUnRefreshing, RefreshMap.set]
    have hk : k ≠ k' := fun h => hop (by rw [h])
    simp [hk, hm]

theorem lockops_preserve_inprogress (k : String) (ops : List LockOp)
    (hops : ∀ op ∈ ops, op ≠ .setUnRefreshingOp k) :
    ∀ m : RefreshMap, m k = some true → (LockOp.applyAll m ops) k = some true := by
  induction ops with
  | nil => intro m hm; simpa [LockOp.applyAll] using hm
  | cons op rest ih =>
    intro m hm
    have h1 : (op.apply m) k = some true :=
      lockop_preserves_inprogress m k op hm (hops op (List.mem_cons_self op rest))
    have := ih (fun o ho => hops o (List.mem_cons_of_mem op ho)) (op.apply m) h1
    simpa [LockOp.applyAll, List.foldl_cons] using this

end LockProofs

/-- C7: `canRefresh k` answers true iff `k` is not marked in-progress,
recording an absent key as `false`; once `setRefreshing k` has run,
every later `canRefresh k` answers false as long as `setUnRefreshing k`
has not run, and after `setUnRefreshing k` it answers true again. -/
theorem C7_refresh_lock_single_flight (m : RefreshMap) (k : String) (ops : List LockOp)
    (hops : ∀ op ∈ ops, op ≠ .setUnRefreshingOp k) :
    ((canRefresh m k).1 = true ↔ ¬ m.inProgress k) ∧
    (m k = none → (canRefresh m k).2 k = some false) ∧
    (canRefresh (LockOp.applyAll (setRefreshing m k) ops) k).1 = false ∧
    (canRefresh (setUnRefreshing (LockOp.applyAll (setRefreshing m k) ops) k) k).1 = true := by
  refine ⟨?_, ?_, ?_, ?_⟩
  · cases h : m k with
    | none => simp [canRefresh, h, RefreshMap.inProgress]
    | some b => cases b <;> simp [canRefresh, h, RefreshMap.inProgress]
  · intro h; simp [canRefresh, h, RefreshMap.set]
  · have hstart : (setRefreshing m k) k = some true := by
      simp [setRefreshing, RefreshMap.set]
    have hend := lockops_preserve_inprogress k ops hops (setRefreshing m k) hstart
    simp [canRefresh, hend]
  · simp [canRefresh, setUnRefreshing, RefreshMap.set]

/-- Witness for C7 at a concrete map, key and operation list. -/
theorem C7_refresh_lock_single_flight_witness :
    ((canRefresh (fun _ => none) "k").1 = true ↔ ¬ RefreshMap.inProgress (fun _ => none) "k") ∧
    ((fun _ => (none : Option Bool)) "k" = none →
      (canRefresh (fun _ => none) "k").2 "k" = some false) ∧
    (canRefresh (LockOp.applyAll (setRefreshing (fun _ => none) "k")
      [.canRefreshOp "k", .setRefreshingOp "x"]) "k").1 = false ∧
    (canRefresh (setUnRefreshing (LockOp.applyAll (setRefreshing (fun _ => none) "k")
      [.canRefreshOp "k", .setRefreshingOp "x"]) "k") "k").1 = true :=
  C7_refresh_lock_single_flight (fun _ => none) "k"
    [.canRefreshOp "k", .setRefreshingOp "x"]
    (by intro op hop; fin_cases hop <;> simp)

/-- C8: `addSubscriber` is idempotent (and keeps an id's multiplicity in
the bucket at most one), and `remSubscriber` of an id absent from its
bucket leaves the whole index unchanged. -/
theorem C8_subscriber_index_idempotent (s : Subscribers) (o t : String) (subid : Int)
    (habs : subid ∉ s (subscriberKey o t))
    (hcount : List.count subid (s (subscriberKey o t)) ≤ 1) :
    addSubscriber (addSubscriber s o t subid) o t subid = addSubscriber s o t subid ∧
    List.count subid ((addSubscriber s o t subid) (subscriberKey o t)) ≤ 1 ∧
    remSubscriber s o t subid = s := by
  refine ⟨?_, ?_, ?_⟩
  · by_cases hmem : subid ∈ s (subscriberKey o t)
    · simp [addSubscriber, hmem]
    · have hmem2 : subid ∈ (addSubscriber s o t subid) (subscriberKey o t) := by
        simp [addSubscriber, hmem, Subscribers.set]
      conv_lhs => rw [addSubscriber]
      simp [hmem2]
  · by_cases hmem : subid ∈ s (subscriberKey o t)
    · simpa [addSubscriber, hmem] using hcount
    · have h0 : List.count subid (s (subscriberKey o t)) = 0 :=
        List.count_eq_zero.mpr hmem
      simp [addSubscriber, hmem, Subscribers.set, List.count_append, h0]
  · funext k
    simp only [remSubscriber, Subscribers.set]
    by_cases hk : k = subscriberKey o t
    · subst hk
      simp only [if_pos rfl]
      exact List.filter_eq_self.mpr (fun a ha => by
        simp only [ne_eq, decide_eq_true_eq]
        exact fun h => habs (h ▸ ha))
    · simp [hk]

/-- Witness for C8 at a concrete index with id 7 absent from the
`o:hostcreate` bucket. -/
theorem C8_subscriber_index_idempotent_witness :
    (addSubscriber (addSubscriber (fun _ => [3]) "o" "hostcreate" 7) "o" "hostcreate" 7 =
      addSubscriber (fun _ => [3]) "o" "hostcreate" 7) ∧
    List.count 7 ((addSubscriber (fun _ => [3]) "o" "hostcreate" 7) (subscriberKey "o" "hostcreate")) ≤ 1 ∧
    remSubscriber (fun _ => [3]) "o" "hostcreate" 7 = (fun _ => [3]) :=
  C8_subscriber_index_idempotent (fun _ => [3]) "o" "hostcreate" 7
    (by decide) (by decide)

/-- C9: `EventHandler.Start` succeeds iff the redis cache, the
distributer and the hash ring are all non-nil; a nil dependency aborts
initialization with an error. -/
theorem C9_event_handler_start_deps (h : EventHandlerDeps) :
    (EventHandlerStart h).isOk = true ↔
      (h.cache ≠ none ∧ h.distributer ≠ none ∧ h.hash ≠ none) := by
  unfold EventHandlerStart
  by_cases hc : h.cache = none <;> by_cases hd : h.distributer = none <;>
    by_cases hh : h.hash = none <;> simp [hc, hd, hh, Except.isOk, Except.toBool]

/-- Witness for C9: with all three dependencies present, `Start`
succeeds. -/
theorem C9_event_handler_start_deps_witness :
    (EventHandlerStart ⟨some (), some (), some ()⟩).isOk = true ↔
      ((some () : Option Unit) ≠ none ∧ (some () : Option Unit) ≠ none ∧
        (some () : Option Unit) ≠ none) :=
  C9_event_handler_start_deps ⟨some (), some (), some ()⟩

/-! ## Shared event data model

JSON payloads decoded into Go `interface{}` values are embedded as the
`Json` inductive; a Go type assertion `.(map[string]interface{})`
succeeds exactly on the `obj` constructor, and `.(string)` exactly on
`str`. -/

inductive Json : Type
  | null : Json
  | bool (b : Bool) : Json
  | num (n : Int) : Json
  | str (s : String) : Json
  | arr (elems : List Json) : Json
  | obj (fields : List (String × Json)) : Json

/-! Constants of the `watch` package referenced by the excerpts.  Their
string values are defined outside `src/`; each is modelled from the
spec as a distinct token — no claim depends on the wire literal. -/

namespace watch

def Host : String := "host"

def ModuleHostRelation : String := "host_relation"

def Biz : String := "biz"

def Set : String := "set"

def Module : String := "module"

def ObjectBase : String := "object_base"

def Create : String := "create"

def Update : String := "update"

def Delete : String := "delete"

def NoEventCursor : String := "no-event-cursor"

end watch

/-! Constants of the `metadata` and `common` packages referenced by the
excerpts; values modelled from the spec as distinct tokens. -/

namespace metadata

def EventTypeInstData : String := "instdata"

def EventTypeRelation : String := "relation"

def EventObjTypeModuleTransfer : String := "moduletransfer"

def EventActionCreate : String := "create"

def EventActionUpdate : String := "update"

def EventActionDelete : String := "delete"

def ConfirmModeHTTPStatus : String := "httpstatus"

def ConfirmModeRegular : String := "regular"

end metadata

namespace common

def BKInnerObjIDHost : String := "host"

def BKInnerObjIDApp : String := "app"

def BKInnerObjIDSet : String := "set"

def BKInnerObjIDModule : String := "module"

def BKInnerObjIDObject : String := "object"

def BKObjIDField : String := "bk_obj_id"

end common

/-- `watch.WatchEventDetail`: the fields the excerpts use. -/
structure WatchEventDetail : Type where
  Cursor : String
  Resource : String
  EventType : String
  Detail : Json

/-- `metadata.EventData`: `PreData`/`CurData` payload pair; an unset Go
interface field is `Json.null`. -/
structure EventData : Type where
  PreData : Json
  CurData : Json

/-- `metadata.EventInst`: the fields the excerpts use.  `ActionTime` is
the Unix-seconds value of `metadata.Time`. -/
structure EventInst : Type where
  Cursor : String
  EventType : String
  ObjType : String
  Action : String
  ActionTime : Int
  Data : List EventData

/-- `metadata.DistInst`: an `EventInst` plus subscription id and
per-subscription dist id. -/
structure DistInst : Type where
  eventInst : EventInst
  DstbID : Int
  SubscriptionID : Int

/-! ## Watch response generator (`watch.go`) -/

/-- `watch.WatchResp` (the payload wrapped by
`metadata.NewSuccessResp`). -/
structure WatchResp : Type where
  Watched : Bool
  Events : List WatchEventDetail

/-- A synthetic single-event detail with only `Cursor` and `Resource`
set, as built at watch.go:107-121 and watch.go:128-145 (the remaining
fields keep their Go zero values). -/
def syntheticDetail (cursor rsc : String) : WatchEventDetail :=
  { Cursor := cursor, Resource := rsc, EventType := "", Detail := Json.null }

/-- `Service.generateResp` (watch.go:101-154). -/
def generateResp (startCursor rsc : String) (events : List WatchEventDetail) : WatchResp :=
  match events with
  | [] =>
    if startCursor = "" then
      { Watched := false, Events := [syntheticDetail watch.NoEventCursor rsc] }
    else
      { Watched := false, Events := [syntheticDetail startCursor rsc] }
  | e :: _ =>
    if e.Cursor = watch.NoEventCursor then
      if startCursor = "" then
        { Watched := false, Events := [syntheticDetail watch.NoEventCursor rsc] }
      else
        { Watched := false, Events := [syntheticDetail startCursor rsc] }
    else
      { Watched := true, Events := events }

/-- C3: the watch response generator returns `Watched=false` with a
single `NoEventCursor` event when there are no events and no start
cursor, echoes the start cursor when one was given, applies the same
two rules when the first event carries `NoEventCursor`, and otherwise
returns `Watched=true` with the events exactly as returned. -/
theorem C3_generate_resp_cases (startCursor rsc : String) (events : List WatchEventDetail) :
    (events = [] → startCursor = "" →
      generateResp startCursor rsc events =
        { Watched := false, Events := [syntheticDetail watch.NoEventCursor rsc] }) ∧
    (events = [] → startCursor ≠ "" →
      generateResp startCursor rsc events =
        { Watched := false, Events := [syntheticDetail startCursor rsc] }) ∧
    (∀ e rest, events = e :: rest → e.Cursor = watch.NoEventCursor → startCursor = "" →
      generateResp startCursor rsc events =
        { Watched := false, Events := [syntheticDetail watch.NoEventCursor rsc] }) ∧
    (∀ e rest, events = e :: rest → e.Cursor = watch.NoEventCursor → startCursor ≠ "" →
      generateResp startCursor rsc events =
        { Watched := false, Events := [syntheticDetail startCursor rsc] }) ∧
    (∀ e rest, events = e :: rest → e.Cursor ≠ watch.NoEventCursor →
      generateResp startCursor rsc events = { Watched := true, Events := events }) := by
  refine ⟨?_, ?_, ?_, ?_, ?_⟩
  · intro he hs; subst he; simp [generateResp, hs]
  · intro he hs; subst he; simp [generateResp, hs]
  · intro e rest he hc hs; subst he; simp [generateResp, hc, hs]
  · intro e rest he hc hs; subst he; simp [generateResp, hc, hs]
  · intro e rest he hc; subst he; simp [generateResp, hc]

/-- Witness for C3: the no-events/no-cursor case and the events-as-is
case at concrete inputs. -/
theorem C3_generate_resp_cases_witness :
    (generateResp "" "host" [] =
      { Watched := false, Events := [syntheticDetail watch.NoEventCursor "host"] }) ∧
    (generateResp "c0" "host" [⟨"c1", "host", "create", Json.null⟩] =
      { Watched := true, Events := [⟨"c1", "host", "create", Json.null⟩] }) :=
  ⟨(C3_generate_resp_cases "" "host" []).1 rfl rfl,
    (C3_generate_resp_cases "c0" "host" [⟨"c1", "host", "create", Json.null⟩]).2.2.2.2
      ⟨"c1", "host", "create", Json.null⟩ [] rfl (by decide)⟩

/-! ## External ingestion: `EventHandler.Handle` (event.go:273-410)

The source repeats the same three-way `Action` sub-switch inside each of
the six resource cases; the embedding factors the resource table and the
action map so each is written once, with the same pairs and the same
skip behaviour (`continue`). -/

/-- The `event.EventType` sub-switch shared by all six resource cases of
`EventHandler.Handle` (event.go:286-298 and its five copies): an unknown
event-type yields `none` (the `default: continue` branch). -/
def eventActionOf (t : String) : Option String :=
  if t = watch.Create then some metadata.EventActionCreate
  else if t = watch.Update then some metadata.EventActionUpdate
  else if t = watch.Delete then some metadata.EventActionDelete
  else none

/-- The `event.Resource` switch of `EventHandler.Handle`
(event.go:281-394): the `(EventType, ObjType)` pair for each known
resource, `none` for the `default: continue` branch. -/
def resourceTypeOf (r : String) : Option (String × String) :=
  if r = watch.Host then some (metadata.EventTypeInstData, common.BKInnerObjIDHost)
  else if r = watch.ModuleHostRelation then
    some (metadata.EventTypeRelation, metadata.EventObjTypeModuleTransfer)
  else if r = watch.Biz then some (metadata.EventTypeInstData, common.BKInnerObjIDApp)
  else if r = watch.Set then some (metadata.EventTypeInstData, common.BKInnerObjIDSet)
  else if r = watch.Module then some (metadata.EventTypeInstData, common.BKInnerObjIDModule)
  else if r = watch.ObjectBase then some (metadata.EventTypeInstData, common.BKInnerObjIDObject)
  else none

/-- The `EventInst` built by `EventHandler.Handle` for one detail
(event.go:275-394): `Cursor`, a one-element `Data` carrying the detail
as `CurData`, `ActionTime := Now()`, and the `(EventType, ObjType,
Action)` triple from the two switches; `none` when either switch hits
its `default: continue`. -/
def eventInstOf (now : Int) (e : WatchEventDetail) : Option EventInst :=
  match resourceTypeOf e.Resource with
  | none => none
  | some (ety, oty) =>
    match eventActionOf e.EventType with
    | none => none
    | some act =>
      some { Cursor := e.Cursor, EventType := ety, ObjType := oty, Action := act,
             ActionTime := now, Data := [{ PreData := Json.null, CurData := e.Detail }] }

/-- A value handed to `json.Marshal` and then `LPUSH`ed; the two
constructors keep the marshaled Go value distinguishable. -/
inductive MarshaledVal : Type
  | detail (d : WatchEventDetail)
  | inst (i : EventInst)

/-- The list of values `EventHandler.Handle` pushes to the main event
queue for a batch of details.  Note event.go:396: the code marshals
`event` — the raw `WatchEventDetail` — and pushes that; the `eventInst`
built just above it is discarded. -/
def handlePushes (now : Int) (events : List WatchEventDetail) : List MarshaledVal :=
  events.filterMap fun e =>
    (eventInstOf now e).map fun _ => MarshaledVal.detail e

/-- A Host/Create detail, the failing input for C2. -/
def c2HostCreate : WatchEventDetail :=
  { Cursor := "c1", Resource := watch.Host, EventType := watch.Create, Detail := Json.null }

/-- C2: at a Host/Create detail the mapping table does produce the
instance-data/host/create `EventInst` and unknown resources or
event-types are skipped, but what `Handle` marshals and LPUSHes is the
raw `WatchEventDetail`, not the built `EventInst` (event.go:396). -/
theorem C2_handle_marshals_detail_not_inst :
    eventInstOf 0 c2HostCreate = some (
      { Cursor := "c1", EventType := metadata.EventTypeInstData,
        ObjType := common.BKInnerObjIDHost, Action := metadata.EventActionCreate,
        ActionTime := 0,
        Data := [{ PreData := Json.null, CurData := Json.null }] } : EventInst) ∧
    handlePushes 0 [c2HostCreate] = [MarshaledVal.detail c2HostCreate] ∧
    MarshaledVal.detail c2HostCreate ≠ MarshaledVal.inst (
      { Cursor := "c1", EventType := metadata.EventTypeInstData,
        ObjType := common.BKInnerObjIDHost, Action := metadata.EventActionCreate,
        ActionTime := 0,
        Data := [{ PreData := Json.null, CurData := Json.null }] } : EventInst) ∧
    handlePushes 0 [(
      { Cursor := "c2", Resource := "unknown_resource",
        EventType := watch.Create, Detail := Json.null } : WatchEventDetail)] = [] ∧
    handlePushes 0 [(
      { Cursor := "c3", Resource := watch.Host,
        EventType := "unknown_type", Detail := Json.null } : WatchEventDetail)] = [] := by
  refine ⟨rfl, rfl, ?_, ?_, ?_⟩
  · intro h; exact MarshaledVal.noConfusion h
  · rfl
  · rfl

/-! ## Fan-out record construction: `EventHandler.getDistInst`
(event.go:438-477) -/

/-- Outcome of `getDistInst`: a normal `(dists, nil)` return, the
non-nil error built at event.go:461, or the run-time panic of the
unchecked `.(string)` type assertion at event.go:467. -/
inductive DistResult : Type
  | ok (dists : List DistInst)
  | err
  | panic

/-- `getDistInst` ended in the non-nil error return. -/
def DistResult.returnsError : DistResult → Bool
  | .err => true
  | _ => false

/-- `getDistInst` returned normally with exactly one dist. -/
def DistResult.returnsExactlyOne : DistResult → Bool
  | .ok dists => dists.length = 1
  | _ => false

/-- `metadata.DistInst{EventInst: *event}` (event.go:439): ids keep
their Go zero values until the handler stamps them. -/
def mkDistInst (event : EventInst) : DistInst :=
  { eventInst := event, DstbID := 0, SubscriptionID := 0 }

/-- `distInst.ObjType = ...` (event.go:467): the assignment goes to the
embedded `EventInst`'s field. -/
def DistInst.setObjType (d : DistInst) (oty : String) : DistInst :=
  { d with eventInst := { d.eventInst with ObjType := oty } }

/-- `EventHandler.getDistInst` (event.go:438-477).  For an
instance-data event on the generic inner object: empty `Data` returns
`(nil, nil)`; the decisive payload (`PreData` on delete, `CurData`
otherwise) must type-assert to a JSON object or the error return fires;
a present `bk_obj_id` value refines the dist's `ObjType` via an
unchecked `.(string)` assertion that panics on a non-string non-null
value; in the remaining cases (and for every other event) exactly one
dist is returned. -/
def getDistInst (event : EventInst) : DistResult :=
  let distInst := mkDistInst event
  if event.EventType = metadata.EventTypeInstData ∧ event.ObjType = common.BKInnerObjIDObject then
    match event.Data with
    | [] => .ok []
    | d0 :: _ =>
      let payload := if event.Action = metadata.EventActionDelete then d0.PreData else d0.CurData
      match payload with
      | .obj fields =>
        match fields.lookup common.BKObjIDField with
        | some (Json.str s) => .ok [distInst.setObjType s]
        | some Json.null => .ok [distInst]
        | some _ => .panic
        | none => .ok [distInst]
      | _ => .err
  else
    .ok [distInst]

/-- The failing input for C10: an instance-data event on the generic
inner object whose decisive payload is a JSON object carrying a numeric
`bk_obj_id`. -/
def c10PanicEvent : EventInst :=
  { Cursor := "c", EventType := metadata.EventTypeInstData,
    ObjType := common.BKInnerObjIDObject, Action := metadata.EventActionCreate,
    ActionTime := 0,
    Data := [{ PreData := Json.null,
               CurData := Json.obj [(common.BKObjIDField, Json.num 5)] }] }

/-- Counterexample to C10 as stated: at `c10PanicEvent` the decisive
payload is a JSON object, so the claim promises a non-error return with
exactly one dist; the unchecked `.(string)` assertion at event.go:467
panics instead, so `getDistInst` neither returns an error nor returns
exactly one `DistInst`. -/
theorem C10_counterexample_nonstring_objid :
    getDistInst c10PanicEvent = DistResult.panic ∧
    DistResult.returnsError (getDistInst c10PanicEvent) = false ∧
    DistResult.returnsExactlyOne (getDistInst c10PanicEvent) = false :=
  ⟨rfl, rfl, rfl⟩

/-- C10 amended: for an instance-data event on the generic inner
object, empty `Data` yields no dist and no error; a decisive payload
that is not a JSON object yields an error; a decisive payload that is a
JSON object with a present non-string non-null `bk_obj_id` value makes
`getDistInst` panic; in every remaining case exactly one `DistInst` is
returned regardless of how many items `Data` contains (with `ObjType`
refined when `bk_obj_id` is a string). -/
theorem C10_getdistinst_object_cases (event : EventInst)
    (hty : event.EventType = metadata.EventTypeInstData)
    (hobj : event.ObjType = common.BKInnerObjIDObject) :
    (event.Data = [] → getDistInst event = .ok []) ∧
    (∀ d0 rest, event.Data = d0 :: rest →
      ∀ payload,
        payload = (if event.Action = metadata.EventActionDelete then d0.PreData
                   else d0.CurData) →
      ((∀ fields, payload ≠ Json.obj fields) → getDistInst event = .err) ∧
      (∀ fields, payload = Json.obj fields →
        ((fields.lookup common.BKObjIDField = none ∨
            fields.lookup common.BKObjIDField = some Json.null) →
          getDistInst event = .ok [mkDistInst event]) ∧
        (∀ s, fields.lookup common.BKObjIDField = some (Json.str s) →
          getDistInst event = .ok [(mkDistInst event).setObjType s]) ∧
        (∀ j, fields.lookup common.BKObjIDField = some j → j ≠ Json.null →
          (∀ s, j ≠ Json.str s) → getDistInst event = .panic))) := by
  obtain ⟨cur, ety, oty, act, atime, data⟩ := event
  simp only at hty hobj
  subst hty; subst hobj
  constructor
  · intro h
    simp only at h
    subst h
    simp [getDistInst]
  · intro d0 rest h payload hpay
    simp only at h
    subst h
    constructor
    · intro hnot
      rcases hp : (if act = metadata.EventActionDelete then d0.PreData else d0.CurData) with
        _ | b | n | s | elems | fields
      · simp [getDistInst, hp]
      · simp [getDistInst, hp]
      · simp [getDistInst, hp]
      · simp [getDistInst, hp]
      · simp [getDistInst, hp]
      · exact absurd (hpay.trans hp) (hnot fields)
    · intro fields hpfields
      have hscrut : (if act = metadata.EventActionDelete then d0.PreData else d0.CurData) =
          Json.obj fields := hpay.symm.trans hpfields
      refine ⟨?_, ?_, ?_⟩
      · rintro (hnone | hnull)
        · simp [getDistInst, hscrut, hnone, mkDistInst]
        · simp [getDistInst, hscrut, hnull, mkDistInst]
      · intro s hs
        simp [getDistInst, hscrut, hs, mkDistInst, DistInst.setObjType]
      · intro j hj hnotnull hnotstr
        rcases j with _ | b | n | s | elems | fs
        · exact absurd rfl hnotnull
        · simp [getDistInst, hscrut, hj]
        · simp [getDistInst, hscrut, hj]
        · exact absurd rfl (hnotstr s)
        · simp [getDistInst, hscrut, hj]
        · simp [getDistInst, hscrut, hj]

/-- The witness input for C10: the same event shape with a string
`bk_obj_id`. -/
def c10StrFields : List (String × Json) := [(common.BKObjIDField, Json.str "switch")]

/-- The single data item of the C10 witness event. -/
def c10StrData : EventData := { PreData := Json.null, CurData := Json.obj c10StrFields }

/-- The C10 witness event itself. -/
def c10StrEvent : EventInst :=
  { Cursor := "c", EventType := metadata.EventTypeInstData,
    ObjType := common.BKInnerObjIDObject, Action := metadata.EventActionCreate,
    ActionTime := 0, Data := [c10StrData] }

/-- Witness for the amended C10: a string `bk_obj_id` refines the
single returned dist's `ObjType`. -/
theorem C10_getdistinst_object_cases_witness :
    getDistInst c10StrEvent = DistResult.ok [(mkDistInst c10StrEvent).setObjType "switch"] := by
  have h := C10_getdistinst_object_cases c10StrEvent rfl rfl
  have h2 := h.2 c10StrData [] rfl (Json.obj c10StrFields) (by rfl)
  exact (h2.2 c10StrFields rfl).2.1 "switch" rfl

/-! ## Event sender (`event.go:55-229`) -/

/-- `metadata.Subscription`: the fields the excerpts use.  `CacheKey`
is the value of `GetCacheKey()`, modelled from the spec as the
subscription's content hash (the hash function itself is outside
`src/`). -/
structure Subscription : Type where
  SubscriptionID : Int
  OwnerID : String
  SubscriptionForm : String
  CallbackURL : String
  ConfirmMode : String
  ConfirmPattern : String
  TimeOutSeconds : Int
  CacheKey : String

/-- The I/O outcomes `EventSender.send` observes, embedded as an
environment: `httpResult = none` is a `DoWithTimeout` error
(event.go:154), `some (status, none)` a response whose body read fails
(event.go:162), `some (status, some body)` a full response. -/
structure SendEnv : Type where
  marshalOk : Bool
  newRequestOk : Bool
  httpResult : Option (Nat × Option String)
  regexCompileOk : Bool
  regexMatches : Bool

/-- The error `EventSender.send` returns, by return site. -/
inductive SendErr : Type
  | subNotFound
  | marshalFailed
  | requestFailed
  | httpFailed
  | readFailed
  | confirmHTTPMismatch
  | regexCompileFailed
  | confirmRegexMismatch
deriving DecidableEq

/-- Observable outcome of one `EventSender.send` call: the returned
error, whether the HTTP POST was issued, and how much the deferred
bookkeeping added to the `total` and `failue` fields of
`DistCallBackCountPrefix:subid` (event.go:103-113). -/
structure SendOutcome : Type where
  err : Option SendErr
  posted : Bool
  totalInc : Nat
  failueInc : Nat
deriving DecidableEq

/-- `EventSender.send` (event.go:115-190).  `increaseTotal` fires once
the subscription is found (event.go:120).  The deferred closure
(event.go:124-128) calls `increaseFailure` iff `errFinal` is non-nil at
return; each branch below records the `errFinal` the source assigns
there.  At the two confirmation-mismatch returns (event.go:171 and
event.go:182) the source assigns `errFinal = err` where `err` is nil —
the read error at event.go:162 resp. the `regexp.Compile` error at
event.go:175, both nil on these paths — so the failure counter is NOT
incremented there.  `strconv.Itoa(resp.StatusCode)` is the decimal
string of the status (`toString`). -/
def send (subscription? : Option Subscription) (env : SendEnv) : SendOutcome :=
  match subscription? with
  | none => { err := some .subNotFound, posted := false, totalInc := 0, failueInc := 0 }
  | some subscription =>
    if ¬ env.marshalOk then
      { err := some .marshalFailed, posted := false, totalInc := 1, failueInc := 1 }
    else if ¬ env.newRequestOk then
      { err := some .requestFailed, posted := false, totalInc := 1, failueInc := 1 }
    else
      match env.httpResult with
      | none => { err := some .httpFailed, posted := true, totalInc := 1, failueInc := 1 }
      | some (_, none) =>
        { err := some .readFailed, posted := true, totalInc := 1, failueInc := 1 }
      | some (status, some _) =>
        if subscription.ConfirmMode = metadata.ConfirmModeHTTPStatus then
          if toString status ≠ subscription.ConfirmPattern then
            { err := some .confirmHTTPMismatch, posted := true, totalInc := 1, failueInc := 0 }
          else
            { err := none, posted := true, totalInc := 1, failueInc := 0 }
        else if subscription.ConfirmMode = metadata.ConfirmModeRegular then
          if ¬ env.regexCompileOk then
            { err := some .regexCompileFailed, posted := true, totalInc := 1, failueInc := 1 }
          else if ¬ env.regexMatches then
            { err := some .confirmRegexMismatch, posted := true, totalInc := 1, failueInc := 0 }
          else
            { err := none, posted := true, totalInc := 1, failueInc := 0 }
        else
          { err := none, posted := true, totalInc := 1, failueInc := 0 }

/-- The failing input for C1: an HTTP-status subscription expecting
"200". -/
def c1Subscription : Subscription :=
  { SubscriptionID := 7, OwnerID := "o", SubscriptionForm := "hostcreate",
    CallbackURL := "http://x/", ConfirmMode := metadata.ConfirmModeHTTPStatus,
    ConfirmPattern := "200", TimeOutSeconds := 0, CacheKey := "h1" }

/-- The callback answers 500 with body "err". -/
def c1Env500 : SendEnv :=
  { marshalOk := true, newRequestOk := true, httpResult := some (500, some "err"),
    regexCompileOk := true, regexMatches := true }

/-- The callback's body does not match the regular expression. -/
def c1EnvNoMatch : SendEnv :=
  { marshalOk := true, newRequestOk := true, httpResult := some (200, some "FAIL"),
    regexCompileOk := true, regexMatches := false }

/-- A regular-expression subscription. -/
def c1RegexSubscription : Subscription :=
  { c1Subscription with
    ConfirmMode := metadata.ConfirmModeRegular,
    ConfirmPattern := "^OK" }

/-- C1 at the failing input: on a confirmation-predicate failure (HTTP
status 500 against pattern "200", and a non-matching body in
regular-expression mode) `send` returns the mismatch error and `total`
is incremented, but `failue` is NOT incremented — the `errFinal = err`
assignments at event.go:171/182 copy a nil `err`, so the deferred
`increaseFailure` never fires. -/
theorem C1_confirm_failure_not_counted :
    send (some c1Subscription) c1Env500 =
      { err := some .confirmHTTPMismatch, posted := true, totalInc := 1, failueInc := 0 } ∧
    send (some c1RegexSubscription) c1EnvNoMatch =
      { err := some .confirmRegexMismatch, posted := true, totalInc := 1, failueInc := 0 } :=
  ⟨by decide, by decide⟩

/-! ## Event sender loop (`EventSender.run`, event.go:192-223) -/

/-- `defaultFusingEventExpireSec` (event.go:52). -/
def defaultFusingEventExpireSec : Int := 5 * 60

/-- Outcome of one iteration of `EventSender.run`: ownership drifted
away (sleep without draining), empty/`nil` pop, dist decode failure,
fusing drop of a stale dist, or a `send` call. -/
inductive RunStepResult : Type
  | notOwner
  | emptyPop
  | decodeFailed
  | fused
  | sent (outcome : SendOutcome)

/-- Counter increments (`total`, `failue`) performed by an iteration:
only a `send` call touches them. -/
def RunStepResult.counters : RunStepResult → Nat × Nat
  | .sent o => (o.totalInc, o.failueInc)
  | _ => (0, 0)

/-- Whether the iteration issued the HTTP POST. -/
def RunStepResult.posted : RunStepResult → Bool
  | .sent o => o.posted
  | _ => false

/-- One iteration of `EventSender.run` (event.go:192-223): the hash
ring is consulted first, then `BLPop` (`popped = none` embeds an empty
or `NilStr` result), then the dist is decoded and the fusing check
`now - ActionTime > defaultFusingEventExpireSec` drops stale dists
before `send`. -/
def runStep (isMatch : Bool) (popped : Option String)
    (decodeDist : String → Option DistInst) (now : Int)
    (subscription? : Option Subscription) (env : SendEnv) : RunStepResult :=
  if ¬ isMatch then .notOwner
  else
    match popped with
    | none => .emptyPop
    | some distData =>
      match decodeDist distData with
      | none => .decodeFailed
      | some dist =>
        if now - dist.eventInst.ActionTime > defaultFusingEventExpireSec then .fused
        else .sent (send subscription? env)

/-- C6: a dist popped more than 5 minutes (300 s) after its
`ActionTime` is dropped by the fusing check: it is never POSTed and
neither `total` nor `failue` changes. -/
theorem C6_fusing_drops_stale_dist (popped : String)
    (decodeDist : String → Option DistInst) (now : Int) (dist : DistInst)
    (subscription? : Option Subscription) (env : SendEnv)
    (hdec : decodeDist popped = some dist)
    (hstale : now - dist.eventInst.ActionTime > defaultFusingEventExpireSec) :
    runStep true (some popped) decodeDist now subscription? env = .fused ∧
    (runStep true (some popped) decodeDist now subscription? env).posted = false ∧
    (runStep true (some popped) decodeDist now subscription? env).counters = (0, 0) := by
  have h : runStep true (some popped) decodeDist now subscription? env = .fused := by
    simp [runStep, hdec, hstale]
  refine ⟨h, ?_, ?_⟩ <;> rw [h] <;> rfl

/-- The stale dist for the C6 witness: `ActionTime = 0`, popped at
`now = 301`. -/
def c6StaleEventInst : EventInst :=
  { Cursor := "c", EventType := metadata.EventTypeInstData,
    ObjType := common.BKInnerObjIDHost, Action := metadata.EventActionCreate,
    ActionTime := 0, Data := [] }

/-- The stale dist itself. -/
def c6StaleDist : DistInst :=
  { eventInst := c6StaleEventInst, DstbID := 1, SubscriptionID := 7 }

/-- Witness for C6 at the concrete stale dist. -/
theorem C6_fusing_drops_stale_dist_witness :
    runStep true (some "d") (fun _ => some c6StaleDist) 301 none c1Env500 = .fused ∧
    (runStep true (some "d") (fun _ => some c6StaleDist) 301 none c1Env500).posted = false ∧
    (runStep true (some "d") (fun _ => some c6StaleDist) 301 none c1Env500).counters = (0, 0) :=
  C6_fusing_drops_stale_dist "d" (fun _ => some c6StaleDist) 301 c6StaleDist none c1Env500
    rfl (by norm_num [c6StaleDist, c6StaleEventInst, defaultFusingEventExpireSec])

/-! ## Subscription registry upsert (`distributer.go:137-174`) -/

/-- Split a comma-separated list into groups of characters, as Go's
`strings.Split(s, ",")` does (an empty string yields one empty
group). -/
def splitCommaChars : List Char → List (List Char)
  | [] => [[]]
  | c :: rest =>
    let r := splitCommaChars rest
    if c = ',' then [] :: r
    else
      match r with
      | [] => [[c]]
      | g :: gs => (c :: g) :: gs

/-- `strings.Split(form, ",")` as used at distributer.go:147/160/161. -/
def splitComma (s : String) : List String :=
  (splitCommaChars s.data).map (fun cs => { data := cs })

/-- `util.CalSliceDiff(old, new)`.  Modelled from the spec: the
function's body lives in `src/common/util`, outside the excerpts; the
spec says the handler diffs "old vs new event-type sets" and calls
`addSubscriber` / `remSubscriber` "on the symmetric differences", so
`subs` (first component) are the old elements missing from new and
`plugs` (second component) the new elements missing from old. -/
def CalSliceDiff (oldList newList : List String) : List String × List String :=
  (oldList.filter (fun x => x ∉ newList), newList.filter (fun x => x ∉ oldList))

/-- The distributer state touched by the upsert handler: the
`subscriptions` map (id → document) and the `subscribers` index. -/
structure DistState : Type where
  subscriptions : Int → Option Subscription
  subscribers : Subscribers

/-- Write one entry of the `subscriptions` map. -/
def setSubscriptionMap (m : Int → Option Subscription) (id : Int) (sub : Subscription) :
    Int → Option Subscription :=
  fun id2 => if id2 = id then some sub else m id2

/-- `Distributer.onUpsertSubscriptions` (distributer.go:137-174),
returning the new state together with the event-type lists passed to
`remSubscriber` (`subs`) and `addSubscriber` (`plugs`).  A new id is
inserted and added to every bucket of its form; an existing id has its
document replaced only when `GetCacheKey()` changed, and the form diff
drives the subscriber mutations. -/
def onUpsertSubscriptions (st : DistState) (subscription : Subscription) :
    DistState × List String × List String :=
  match st.subscriptions subscription.SubscriptionID with
  | none =>
    let eventTypes := splitComma subscription.SubscriptionForm
    (⟨setSubscriptionMap st.subscriptions subscription.SubscriptionID subscription,
      eventTypes.foldl
        (fun s t => addSubscriber s subscription.OwnerID t subscription.SubscriptionID)
        st.subscribers⟩,
     [], eventTypes)
  | some oldSubscription =>
    let subscriptions1 :=
      if subscription.CacheKey ≠ oldSubscription.CacheKey then
        setSubscriptionMap st.subscriptions subscription.SubscriptionID subscription
      else st.subscriptions
    let oldEventTypes := splitComma oldSubscription.SubscriptionForm
    let eventTypes := splitComma subscription.SubscriptionForm
    let diff := CalSliceDiff oldEventTypes eventTypes
    let afterRem := diff.1.foldl
      (fun s t => remSubscriber s subscription.OwnerID t subscription.SubscriptionID)
      st.subscribers
    let afterAdd := diff.2.foldl
      (fun s t => addSubscriber s subscription.OwnerID t subscription.SubscriptionID)
      afterRem
    (⟨subscriptions1, afterAdd⟩, diff.1, diff.2)

/-- C5: updating an existing subscription whose form goes from "A,B" to
"B,C" passes exactly ["A"] to `remSubscriber` and exactly ["C"] to
`addSubscriber`, mutates the index accordingly, and replaces the stored
document exactly when the content hash changed. -/
theorem C5_upsert_update_diff (st : DistState) (oldSub newSub : Subscription)
    (hex : st.subscriptions newSub.SubscriptionID = some oldSub)
    (hold : oldSub.SubscriptionForm = "A,B")
    (hnew : newSub.SubscriptionForm = "B,C") :
    (onUpsertSubscriptions st newSub).2.1 = ["A"] ∧
    (onUpsertSubscriptions st newSub).2.2 = ["C"] ∧
    (onUpsertSubscriptions st newSub).1.subscribers =
      addSubscriber (remSubscriber st.subscribers newSub.OwnerID "A" newSub.SubscriptionID)
        newSub.OwnerID "C" newSub.SubscriptionID ∧
    (onUpsertSubscriptions st newSub).1.subscriptions newSub.SubscriptionID =
      (if newSub.CacheKey ≠ oldSub.CacheKey then some newSub else some oldSub) := by
  have hdiff : CalSliceDiff (splitComma oldSub.SubscriptionForm)
      (splitComma newSub.SubscriptionForm) = (["A"], ["C"]) := by
    rw [hold, hnew]; decide
  refine ⟨?_, ?_, ?_, ?_⟩
  · simp [onUpsertSubscriptions, hex, hdiff]
  · simp [onUpsertSubscriptions, hex, hdiff]
  · simp [onUpsertSubscriptions, hex, hdiff]
  · by_cases hck : newSub.CacheKey = oldSub.CacheKey
    · simp [onUpsertSubscriptions, hex, hdiff, hck]
    · simp [onUpsertSubscriptions, hex, hdiff, hck, setSubscriptionMap]

/-- The pre-update document for the C5 witness. -/
def c5Old : Subscription :=
  { SubscriptionID := 7, OwnerID := "o", SubscriptionForm := "A,B",
    CallbackURL := "http://x/", ConfirmMode := metadata.ConfirmModeHTTPStatus,
    ConfirmPattern := "200", TimeOutSeconds := 0, CacheKey := "k1" }

/-- The updated document for the C5 witness: form "B,C", new hash. -/
def c5New : Subscription :=
  { c5Old with SubscriptionForm := "B,C", CacheKey := "k2" }

/-- The registry state holding `c5Old` under id 7. -/
def c5State : DistState :=
  { subscriptions := fun id => if id = 7 then some c5Old else none,
    subscribers := fun _ => [] }

/-- Witness for C5 at the concrete registry state. -/
theorem C5_upsert_update_diff_witness :
    (onUpsertSubscriptions c5State c5New).2.1 = ["A"] ∧
    (onUpsertSubscriptions c5State c5New).2.2 = ["C"] ∧
    (onUpsertSubscriptions c5State c5New).1.subscribers =
      addSubscriber (remSubscriber c5State.subscribers c5New.OwnerID "A" c5New.SubscriptionID)
        c5New.OwnerID "C" c5New.SubscriptionID ∧
    (onUpsertSubscriptions c5State c5New).1.subscriptions c5New.SubscriptionID =
      (if c5New.CacheKey ≠ c5Old.CacheKey then some c5New else some c5Old) :=
  C5_upsert_update_diff c5State c5Old c5New rfl rfl rfl

/-! ## Resource cursor tracker (`distributer.go:206-262`)

`watch.ParseCursorTypeFromEventType` and `watch.Cursor.Decode` live
outside the excerpts, so the tracker is parameterized by a `parse` and
a `decode` function; cursor types are strings.  The cache keys
`SubscriberCursorPrefix:owner:eventType:subid` are modelled
structurally, which makes the malformed-bucket-key error branch at
distributer.go:212-215 unreachable.  `cache.Get` follows redis.v5:
`none` (an absent key) yields the `redis.Nil` error, which the source
returns as a failure at distributer.go:230-233. -/

/-- `watch.Cursor` as the tracker uses it: the decoded
`ClusterTime.Sec` plus the rest of the token, kept opaque. -/
structure Cursor : Type where
  Sec : Nat
  payload : String
deriving DecidableEq

/-- The persisted subscriber cursor store, keyed by
(owner, eventType, subid). -/
def SubCursorCache : Type := String → String → Int → Option String

/-- The update at distributer.go:248-257: keep the cursor with the
smaller `ClusterTime.Sec` (the incumbent wins ties). -/
def updateOldestCursor (rc : Option Cursor) (subCursor : Cursor) : Option Cursor :=
  match rc with
  | none => some subCursor
  | some oldest => if subCursor.Sec < oldest.Sec then some subCursor else some oldest

/-- The inner loop of `getResourceCursor` over one bucket's
subscription ids (distributer.go:224-258): an absent key is a
`cache.Get` error and aborts; a present empty value leaves `subCursor`
nil and is skipped; a decode failure aborts; otherwise the running
oldest cursor is updated. -/
def scanBucketCursors (decode : String → Option Cursor) (cache : SubCursorCache)
    (ownerid eventType : String) : List Int → Option Cursor → Except String (Option Cursor)
  | [], rc => .ok rc
  | subid :: rest, rc =>
    match cache ownerid eventType subid with
    | none => .error "query subscriber cursor failed"
    | some val =>
      if val = "" then scanBucketCursors decode cache ownerid eventType rest rc
      else
        match decode val with
        | none => .error "invalid cursor"
        | some cursor =>
          scanBucketCursors decode cache ownerid eventType rest (updateOldestCursor rc cursor)

/-- `Distributer.getResourceCursor` (distributer.go:206-262): walk
every `(owner, eventType)` bucket whose event type parses to the wanted
cursor type, folding the oldest persisted cursor; `rc` is the entry of
the persistent `resourceCursors` map for this cursor type on entry, and
the final value is both stored there and returned. -/
def getResourceCursor (parse : String → String) (decode : String → Option Cursor)
    (cache : SubCursorCache) (subscribers : List (String × String × List Int))
    (cursorType : String) (rc : Option Cursor) : Except String (Option Cursor) :=
  match subscribers with
  | [] => .ok rc
  | (ownerid, eventType, ids) :: rest =>
    if parse eventType ≠ cursorType then
      getResourceCursor parse decode cache rest cursorType rc
    else
      match scanBucketCursors decode cache ownerid eventType ids rc with
      | .error e => .error e
      | .ok rc1 => getResourceCursor parse decode cache rest cursorType rc1

/-- The cursors one bucket contributes: present, non-empty, decodable
values in id order. -/
def bucketCursors (decode : String → Option Cursor) (cache : SubCursorCache)
    (ownerid eventType : String) : List Int → List Cursor
  | [] => []
  | subid :: rest =>
    match cache ownerid eventType subid with
    | none => bucketCursors decode cache ownerid eventType rest
    | some val =>
      if val = "" then bucketCursors decode cache ownerid eventType rest
      else
        match decode val with
        | none => bucketCursors decode cache ownerid eventType rest
        | some cursor => cursor :: bucketCursors decode cache ownerid eventType rest

/-- All cursors contributed by the buckets matching the cursor type. -/
def collectCursors (parse : String → String) (decode : String → Option Cursor)
    (cache : SubCursorCache) (subscribers : List (String × String × List Int))
    (cursorType : String) : List Cursor :=
  match subscribers with
  | [] => []
  | (ownerid, eventType, ids) :: rest =>
    if parse eventType = cursorType then
      bucketCursors decode cache ownerid eventType ids ++
        collectCursors parse decode cache rest cursorType
    else
      collectCursors parse decode cache rest cursorType

/-- One stored value is readable: present, and empty or decodable. -/
def cursorReadable (decode : String → Option Cursor) : Option String → Prop
  | none => False
  | some val => val = "" ∨ (decode val).isSome = true

instance (decode : String → Option Cursor) (v : Option String) :
    Decidable (cursorReadable decode v) :=
  match v with
  | none => isFalse (fun h => h)
  | some _ => inferInstanceAs (Decidable (_ ∨ _))

/-- Every persisted cursor of every bucket matching the cursor type is
readable. -/
def CursorsReadable (parse : String → String) (decode : String → Option Cursor)
    (cache : SubCursorCache) (subscribers : List (String × String × List Int))
    (cursorType : String) : Prop :=
  ∀ b ∈ subscribers, parse b.2.1 = cursorType →
    ∀ subid ∈ b.2.2, cursorReadable decode (cache b.1 b.2.1 subid)

instance (parse : String → String) (decode : String → Option Cursor)
    (cache : SubCursorCache) (subscribers : List (String × String × List Int))
    (cursorType : String) :
    Decidable (CursorsReadable parse decode cache subscribers cursorType) :=
  List.decidableBAll _ subscribers

/-- `res` is an oldest element of `cs` by `ClusterTime.Sec` (`none`
exactly for the empty list). -/
def IsOldestOf (res : Option Cursor) (cs : List Cursor) : Prop :=
  match res with
  | none => cs = []
  | some c => c ∈ cs ∧ ∀ x ∈ cs, c.Sec ≤ x.Sec

instance (res : Option Cursor) (cs : List Cursor) : Decidable (IsOldestOf res cs) :=
  match res with
  | none => inferInstanceAs (Decidable (_ = _))
  | some _ => inferInstanceAs (Decidable (_ ∧ _))

section CursorTrackerProofs

theorem scanBucketCursors_readable_ok (decode : String → Option Cursor)
    (cache : SubCursorCache) (ownerid eventType : String) (ids : List Int)
    (h : ∀ subid ∈ ids, cursorReadable decode (cache ownerid eventType subid)) :
    ∀ rc, scanBucketCursors decode cache ownerid eventType ids rc =
      .ok ((bucketCursors decode cache ownerid eventType ids).foldl updateOldestCursor rc) := by
  induction ids with
  | nil => intro rc; simp [scanBucketCursors, bucketCursors]
  | cons subid rest ih =>
    intro rc
    have hhead := h subid (List.mem_cons_self subid rest)
    have htail := fun s hs => h s (List.mem_cons_of_mem subid hs)
    cases hv : cache ownerid eventType subid with
    | none => rw [hv] at hhead; exact absurd hhead (fun hf => hf)
    | some val =>
      rw [hv] at hhead
      by_cases hempty : val = ""
      · simp [scanBucketCursors, bucketCursors, hv, hempty, ih htail]
      · cases hd : decode val with
        | none =>
          rcases hhead with h1 | h2
          · exact absurd h1 hempty
          · rw [hd] at h2; exact absurd h2 (by simp)
        | some cursor =>
          simp [scanBucketCursors, bucketCursors, hv, hempty, hd, ih htail]

theorem getResourceCursor_readable_ok (parse : String → String)
    (decode : String → Option Cursor) (cache : SubCursorCache)
    (subscribers : List (String × String × List Int)) (cursorType : String)
    (h : CursorsReadable parse decode cache subscribers cursorType) :
    ∀ rc, getResourceCursor parse decode cache subscribers cursorType rc =
      .ok ((collectCursors parse decode cache subscribers cursorType).foldl
        updateOldestCursor rc) := by
  induction subscribers with
  | nil => intro rc; simp [getResourceCursor, collectCursors]
  | cons b rest ih =>
    intro rc
    obtain ⟨ownerid, eventType, ids⟩ := b
    have hhead := h ⟨ownerid, eventType, ids⟩ (List.mem_cons_self _ rest)
    have htail : CursorsReadable parse decode cache rest cursorType :=
      fun b2 hb2 => h b2 (List.mem_cons_of_mem _ hb2)
    by_cases hp : parse eventType = cursorType
    · have hscan := scanBucketCursors_readable_ok decode cache ownerid eventType ids
        (hhead hp) rc
      simp [getResourceCursor, collectCursors, hp, hscan, ih htail, List.foldl_append]
    · simp [getResourceCursor, collectCursors, hp, ih htail]

theorem foldl_updateOldest_some (l : List Cursor) :
    ∀ c : Cursor, ∃ m, l.foldl updateOldestCursor (some c) = some m ∧
      (m = c ∨ m ∈ l) ∧ m.Sec ≤ c.Sec ∧ ∀ x ∈ l, m.Sec ≤ x.Sec := by
  induction l with
  | nil => intro c; exact ⟨c, rfl, Or.inl rfl, le_refl _, by simp⟩
  | cons x rest ih =>
    intro c
    simp only [List.foldl_cons, updateOldestCursor]
    by_cases hlt : x.Sec < c.Sec
    · rw [if_pos hlt]
      obtain ⟨m, hm, hmem, hle, hall⟩ := ih x
      refine ⟨m, hm, ?_, ?_, ?_⟩
      · rcases hmem with h1 | h2
        · exact Or.inr (h1 ▸ List.mem_cons_self x rest)
        · exact Or.inr (List.mem_cons_of_mem x h2)
      · exact le_trans hle (le_of_lt hlt)
      · intro y hy
        rcases List.mem_cons.mp hy with h1 | h2
        · exact h1 ▸ hle
        · exact hall y h2
    · rw [if_neg hlt]
      obtain ⟨m, hm, hmem, hle, hall⟩ := ih c
      have hcx : c.Sec ≤ x.Sec := not_lt.mp hlt
      refine ⟨m, hm, ?_, hle, ?_⟩
      · rcases hmem with h1 | h2
        · exact Or.inl h1
        · exact Or.inr (List.mem_cons_of_mem x h2)
      · intro y hy
        rcases List.mem_cons.mp hy with h1 | h2
        · exact h1 ▸ le_trans hle hcx
        · exact hall y h2

theorem isOldest_foldl_none (l : List Cursor) :
    IsOldestOf (l.foldl updateOldestCursor none) l := by
  cases l with
  | nil => exact rfl
  | cons x rest =>
    have hstep : (x :: rest).foldl updateOldestCursor none =
        rest.foldl updateOldestCursor (some x) := by
      simp [List.foldl_cons, updateOldestCursor]
    obtain ⟨m, hm, hmem, hle, hall⟩ := foldl_updateOldest_some rest x
    rw [hstep, hm]
    refine ⟨?_, ?_⟩
    · rcases hmem with h1 | h2
      · exact h1 ▸ List.mem_cons_self x rest
      · exact List.mem_cons_of_mem x h2
    · intro y hy
      rcases List.mem_cons.mp hy with h1 | h2
      · exact h1 ▸ hle
      · exact hall y h2

theorem scanBucketCursors_absent_not_ok (decode : String → Option Cursor)
    (cache : SubCursorCache) (ownerid eventType : String) (ids : List Int)
    (h : ∃ subid ∈ ids, cache ownerid eventType subid = none) :
    ∀ rc, (scanBucketCursors decode cache ownerid eventType ids rc).isOk = false := by
  induction ids with
  | nil => rcases h with ⟨_, hmem, _⟩; exact absurd hmem (by simp)
  | cons subid rest ih =>
    intro rc
    rcases h with ⟨id0, hmem, hnone⟩
    rcases List.mem_cons.mp hmem with h1 | h2
    · subst h1
      simp [scanBucketCursors, hnone, Except.isOk, Except.toBool]
    · cases hv : cache ownerid eventType subid with
      | none => simp [scanBucketCursors, hv, Except.isOk, Except.toBool]
      | some val =>
        by_cases hempty : val = ""
        · simp only [scanBucketCursors, hv, if_pos hempty]
          exact ih ⟨id0, h2, hnone⟩ rc
        · cases hd : decode val with
          | none => simp [scanBucketCursors, hv, hempty, hd, Except.isOk, Except.toBool]
          | some cursor =>
            simp only [scanBucketCursors, hv, if_neg hempty, hd]
            exact ih ⟨id0, h2, hnone⟩ (updateOldestCursor rc cursor)

theorem getResourceCursor_absent_not_ok (parse : String → String)
    (decode : String → Option Cursor) (cache : SubCursorCache)
    (subscribers : List (String × String × List Int)) (cursorType : String)
    (h : ∃ b ∈ subscribers, parse b.2.1 = cursorType ∧
      ∃ subid ∈ b.2.2, cache b.1 b.2.1 subid = none) :
    ∀ rc, (getResourceCursor parse decode cache subscribers cursorType rc).isOk = false := by
  induction subscribers with
  | nil => rcases h with ⟨_, hmem, _⟩; exact absurd hmem (by simp)
  | cons b rest ih =>
    intro rc
    obtain ⟨ownerid, eventType, ids⟩ := b
    rcases h with ⟨b0, hmem, hpt, habs⟩
    rcases List.mem_cons.mp hmem with h1 | h2
    · subst h1
      simp only at hpt habs
      rw [getResourceCursor, if_neg (by simp [hpt])]
      have hscan := scanBucketCursors_absent_not_ok decode cache ownerid eventType ids habs rc
      cases hs : scanBucketCursors decode cache ownerid eventType ids rc with
      | error e => simp [Except.isOk, Except.toBool]
      | ok rc1 => rw [hs] at hscan; exact absurd hscan (by simp [Except.isOk, Except.toBool])
    · by_cases hp : parse eventType = cursorType
      · rw [getResourceCursor, if_neg (by simp [hp])]
        cases hs : scanBucketCursors decode cache ownerid eventType ids rc with
        | error e => simp [Except.isOk, Except.toBool]
        | ok rc1 => exact ih ⟨b0, h2, hpt, habs⟩ rc1
      · rw [getResourceCursor, if_pos hp]
        exact ih ⟨b0, h2, hpt, habs⟩ rc

end CursorTrackerProofs

/-- A cursor-type map sending every event type to "host". -/
def c4Parse : String → String := fun _ => "host"

/-- A decoder used where decoding is never reached. -/
def c4Decode : String → Option Cursor := fun _ => none

/-- A cache with no persisted cursor at all. -/
def c4EmptyCache : SubCursorCache := fun _ _ _ => none

/-- One bucket `o:hostcreate` holding subscription id 7. -/
def c4Subscribers : List (String × String × List Int) := [("o", "hostcreate", [7])]

/-- Counterexample to C4 as stated: subscription 7's persisted cursor
is absent from the cache, and instead of being skipped (with a nil
overall result) the absence makes `getResourceCursor` fail with the
`cache.Get` (redis.Nil) error from distributer.go:230-233. -/
theorem C4_counterexample_absent_cursor_error :
    getResourceCursor c4Parse c4Decode c4EmptyCache c4Subscribers "host" none =
      .error "query subscriber cursor failed" ∧
    (getResourceCursor c4Parse c4Decode c4EmptyCache c4Subscribers "host" none).isOk = false :=
  ⟨rfl, rfl⟩

/-- C4 amended: over the buckets whose event type maps to the wanted
cursor type, a persisted cursor that is present and empty is skipped;
if every persisted cursor is present (empty or decodable) the call
succeeds and returns an oldest cursor by `ClusterTime.Sec` of the
readable ones — in particular nil when no bucket contributes one —
while a subscriber whose persisted cursor is absent from the cache
makes the call fail with an error. -/
theorem C4_getresourcecursor_oldest (parse : String → String)
    (decode : String → Option Cursor) (cache : SubCursorCache)
    (subscribers : List (String × String × List Int)) (cursorType : String) :
    (CursorsReadable parse decode cache subscribers cursorType →
      getResourceCursor parse decode cache subscribers cursorType none =
        .ok ((collectCursors parse decode cache subscribers cursorType).foldl
          updateOldestCursor none) ∧
      IsOldestOf ((collectCursors parse decode cache subscribers cursorType).foldl
          updateOldestCursor none)
        (collectCursors parse decode cache subscribers cursorType)) ∧
    ((∃ b ∈ subscribers, parse b.2.1 = cursorType ∧
        ∃ subid ∈ b.2.2, cache b.1 b.2.1 subid = none) →
      (getResourceCursor parse decode cache subscribers cursorType none).isOk = false) := by
  constructor
  · intro h
    exact ⟨getResourceCursor_readable_ok parse decode cache subscribers cursorType h none,
      isOldest_foldl_none _⟩
  · intro h
    exact getResourceCursor_absent_not_ok parse decode cache subscribers cursorType h none

/-- The cache for the C4 witness: cursors for ids 7 (`Sec = 5`) and 9
(`Sec = 3`). -/
def c4CacheW : SubCursorCache := fun ownerid eventType subid =>
  if ownerid = "o" ∧ eventType = "hostcreate" ∧ subid = 7 then some "c7"
  else if ownerid = "o" ∧ eventType = "hostupdate" ∧ subid = 9 then some "c9"
  else none

/-- The decoder for the C4 witness. -/
def c4DecodeW : String → Option Cursor := fun val =>
  if val = "c7" then some ⟨5, "c7"⟩
  else if val = "c9" then some ⟨3, "c9"⟩
  else none

/-- Two buckets mapping to the same cursor type. -/
def c4SubscribersW : List (String × String × List Int) :=
  [("o", "hostcreate", [7]), ("o", "hostupdate", [9])]

/-- Witness for the amended C4: on the two-bucket state the call
returns the Sec-oldest cursor, and on the empty cache it fails. -/
theorem C4_getresourcecursor_oldest_witness :
    (getResourceCursor c4Parse c4DecodeW c4CacheW c4SubscribersW "host" none =
      .ok ((collectCursors c4Parse c4DecodeW c4CacheW c4SubscribersW "host").foldl
        updateOldestCursor none) ∧
    IsOldestOf ((collectCursors c4Parse c4DecodeW c4CacheW c4SubscribersW "host").foldl
        updateOldestCursor none)
      (collectCursors c4Parse c4DecodeW c4CacheW c4SubscribersW "host")) ∧
    (getResourceCursor c4Parse c4Decode c4EmptyCache c4Subscribers "host" none).isOk = false :=
  ⟨(C4_getresourcecursor_oldest c4Parse c4DecodeW c4CacheW c4SubscribersW "host").1
      (by decide),
    (C4_getresourcecursor_oldest c4Parse c4Decode c4EmptyCache c4Subscribers "host").2
      (by decide)⟩
